import Mathlib

/-!
Shallow embedding of `src/CanvasPointer.ts` (class `CanvasPointer`) from the
litegraph.js repository, together with the distance helper it uses.

Modelling choices:
* A pointer event is a record of the fields the class reads: `pointerId`,
  `button`, `buttons` (bitmask), `clientX`/`clientY`, `timeStamp`.
  Coordinates and timestamps are integers (the code only compares, subtracts
  and squares them).
* The mutable static configuration of the class (`bufferTime`,
  `doubleClickTime`, `maxClickDrift` and its cached square) is an explicit
  `Config` record passed to the operations; the static setter of
  `maxClickDrift` becomes `setMaxClickDrift`.
* Callbacks are not executed; their registration state is a `Bool` per slot,
  and every invocation the class would perform is appended to an event log
  (`Fired`).  The `finally` slot keeps the callback's identity and whether
  it throws, so the `try`/`finally` of its setter can be modelled: an
  operation returns the successor state, the log, and whether an exception
  propagated out of it (`raised`).
* Pointer capture on the bound element is the element-side state
  `captured : Option Nat` (which pointer id, if any, the element has
  captured); `setPointerCapture`, `hasPointerCapture` and
  `releasePointerCapture` act on it, and acquisitions/releases are logged.
-/

/-- The pointer-event fields read by `CanvasPointer`. -/
structure PointerEvent where
  pointerId : Nat
  button : Int
  buttons : Nat
  clientX : Int
  clientY : Int
  timeStamp : Int
deriving DecidableEq, Repr

/-- Modelled from the spec: the Distance Utility (`dist2` in `src/measure`,
a file that is not part of the provided sources) — the squared Euclidean
distance between two 2D points, used to avoid a square root. -/
def dist2 (ax ay bx by_ : Int) : Int :=
  (bx - ax) * (bx - ax) + (by_ - ay) * (by_ - ay)

/-- The static configuration of `CanvasPointer`: `bufferTime`,
`doubleClickTime`, `maxClickDrift` and the cached `#maxClickDrift2`. -/
structure Config where
  bufferTime : Int
  doubleClickTime : Int
  maxClickDrift : Int
  maxClickDrift2 : Int
deriving DecidableEq, Repr

/-- The default static configuration: `bufferTime = 150`,
`doubleClickTime = 300`, `#maxClickDrift = 6`, `#maxClickDrift2 = 6 ** 2`. -/
def defaultCfg : Config :=
  { bufferTime := 150, doubleClickTime := 300
    maxClickDrift := 6, maxClickDrift2 := 36 }

/-- The static setter `set maxClickDrift(value)`: stores the value and
refreshes the cached square (`value * value`). -/
def setMaxClickDrift (c : Config) (value : Int) : Config :=
  { c with maxClickDrift := value, maxClickDrift2 := value * value }

/-- The `finally` slot holds a callback; we track its identity and whether
invoking it throws. -/
structure FinallyCb where
  id : Nat
  throws : Bool
deriving DecidableEq, Repr

/-- One observable action performed by the class: a callback invocation or a
pointer-capture acquisition/release. -/
inductive Fired where
  | dragStart
  | drag (e : PointerEvent)
  | dragEnd (e : PointerEvent)
  | click (e : PointerEvent)
  | doubleClick (e : PointerEvent)
  | finallyCall (id : Nat)
  | setCapture (pointerId : Nat)
  | releaseCapture
deriving DecidableEq, Repr

/-- Is this log entry an `onDrag` invocation? -/
def Fired.isDrag : Fired → Bool
  | .drag _ => true
  | _ => false

/-- Is this log entry an `onClick` or `onDoubleClick` invocation? -/
def Fired.isClickKind : Fired → Bool
  | .click _ => true
  | .doubleClick _ => true
  | _ => false

/-- Is this log entry an `onDragStart` invocation? -/
def Fired.isDragStartKind : Fired → Bool
  | .dragStart => true
  | _ => false

/-- Is this log entry an `onDragEnd` invocation? -/
def Fired.isDragEndKind : Fired → Bool
  | .dragEnd _ => true
  | _ => false

/-- Is this log entry an invocation of one of the five run-once gesture
callbacks (`onDragStart`/`onDrag`/`onDragEnd`/`onClick`/`onDoubleClick`)? -/
def Fired.isCallback : Fired → Bool
  | .dragStart => true
  | .drag _ => true
  | .dragEnd _ => true
  | .click _ => true
  | .doubleClick _ => true
  | _ => false

/-- Is this log entry a `finally`-slot invocation? -/
def Fired.isFinallyCall : Fired → Bool
  | .finallyCall _ => true
  | _ => false

/-- Is this log entry a pointer-capture release? -/
def Fired.isRelease : Fired → Bool
  | .releaseCapture => true
  | _ => false

/-- Is this log entry bookkeeping (a `finally` invocation or a capture
acquisition/release) rather than a gesture-callback invocation? -/
def Fired.isAdmin : Fired → Bool
  | .finallyCall _ => true
  | .setCapture _ => true
  | .releaseCapture => true
  | _ => false

/-- The mutable instance state of a `CanvasPointer`, plus the capture state
of its bound element (`captured`). -/
structure CPState where
  pointerId : Option Nat
  dragStarted : Bool
  eLastDown : Option PointerEvent
  isDouble : Bool
  isDown : Bool
  clearEventsOnReset : Bool
  eDown : Option PointerEvent
  eMove : Option PointerEvent
  eUp : Option PointerEvent
  onDragStart : Bool
  onDrag : Bool
  onDragEnd : Bool
  onClick : Bool
  onDoubleClick : Bool
  fin : Option FinallyCb
  captured : Option Nat
deriving DecidableEq, Repr

/-- A freshly constructed `CanvasPointer` bound to an element with no
capture: all events and callbacks unset, flags false,
`clearEventsOnReset = true`. -/
def CPState.fresh : CPState :=
  { pointerId := none, dragStarted := false, eLastDown := none
    isDouble := false, isDown := false, clearEventsOnReset := true
    eDown := none, eMove := none, eUp := none
    onDragStart := false, onDrag := false, onDragEnd := false
    onClick := false, onDoubleClick := false, fin := none, captured := none }

/-- Result of running one operation: successor state, the log of observable
actions, and whether an exception propagated out of the operation. -/
structure MRes where
  s : CPState
  log : List Fired
  raised : Bool
deriving DecidableEq, Repr

/-- The invocation log of the callback currently in the `finally` slot. -/
def finCalls : Option FinallyCb → List Fired
  | none => []
  | some f => [.finallyCall f.id]

/-- Whether invoking the callback currently in the `finally` slot throws. -/
def finRaises : Option FinallyCb → Bool
  | none => false
  | some f => f.throws

namespace CanvasPointer

/-- Method `#hasSamePosition(a, b, tolerance2)`: squared distance between the two
events is at most `tolerance2`. -/
def hasSamePosition (a b : PointerEvent) (tolerance2 : Int) : Bool :=
  dist2 a.clientX a.clientY b.clientX b.clientY ≤ tolerance2

/-- Method `#isDoubleClick()`: needs both `eDown` and `eLastDown`; the timestamp
delta must be strictly positive and below `doubleClickTime`, and the two
down-events must be within `(3 * #maxClickDrift) ** 2` squared distance. -/
def isDoubleClick (cfg : Config) (s : CPState) : Bool :=
  match s.eDown, s.eLastDown with
  | some eDown, some eLastDown =>
    let tolerance2 := (3 * cfg.maxClickDrift) ^ 2
    let diff := eDown.timeStamp - eLastDown.timeStamp
    diff > 0 && diff < cfg.doubleClickTime &&
      hasSamePosition eDown eLastDown tolerance2
  | _, _ => false

/-- Method `#setDragStarted()`: sets `dragStarted`, invokes `onDragStart` if
registered, then deletes the `onDragStart` slot. -/
def setDragStarted (s : CPState) : CPState × List Fired :=
  ({ s with dragStarted := true, onDragStart := false },
   if s.onDragStart then [.dragStart] else [])

/-- Method `#completeClick(e)`: records `e` as `eUp`, then fires `onDragEnd`
(drag already started, or teleport — which first forces the drag-start
transition), `onDoubleClick` (registered and the double-click test passes,
clearing `eLastDown`), or `onClick` (recording `eDown` as `eLastDown`). -/
def completeClick (cfg : Config) (s : CPState) (e : PointerEvent) :
    CPState × List Fired :=
  match s.eDown with
  | none => (s, [])
  | some eDown =>
    let s := { s with eUp := some e }
    if s.dragStarted then
      (s, if s.onDragEnd then [.dragEnd e] else [])
    else if ¬ hasSamePosition e eDown cfg.maxClickDrift2 then
      let r := setDragStarted s
      (r.1, r.2 ++ if r.1.onDragEnd then [.dragEnd e] else [])
    else if s.onDoubleClick && isDoubleClick cfg s then
      ({ s with eLastDown := none }, [.doubleClick e])
    else
      ({ s with eLastDown := some eDown },
       if s.onClick then [.click e] else [])

/-- The `finally` setter: `try { this.#finally?.() } finally
{ this.#finally = value }` — invokes the held callback (if any), stores the
new value in every case, and propagates the callback's exception if it
threw. -/
def setFinally (s : CPState) (value : Option FinallyCb) : MRes :=
  { s := { s with fin := value }
    log := finCalls s.fin
    raised := finRaises s.fin }

/-- The field-clearing part of `reset()`: deletes the five run-once
callbacks, clears the flags, and nulls the events when
`clearEventsOnReset`. -/
def clearedFields (s : CPState) : CPState :=
  { s with
    onClick := false, onDoubleClick := false, onDragStart := false
    onDrag := false, onDragEnd := false
    isDown := false, isDouble := false, dragStarted := false
    eDown := if s.clearEventsOnReset then none else s.eDown
    eMove := if s.clearEventsOnReset then none else s.eMove
    eUp := if s.clearEventsOnReset then none else s.eUp }

/-- The capture-release tail of `reset()`:
`if (element.hasPointerCapture(pointerId)) element.releasePointerCapture(pointerId)`. -/
def releaseStep (s : CPState) : CPState × List Fired :=
  match s.pointerId with
  | none => (s, [])
  | some pid =>
    if s.captured = some pid then ({ s with captured := none }, [.releaseCapture])
    else (s, [])

/-- Method `reset()`: assigns `undefined` to the `finally` slot (running the held
callback; if it throws, the slot is still cleared but the rest of the body
is skipped and the exception propagates), deletes the callbacks, clears the
flags and (optionally) the events, and releases pointer capture if held. -/
def reset (s : CPState) : MRes :=
  let r := setFinally s none
  if r.raised then { r with raised := true }
  else
    let s2 := clearedFields r.s
    let rel := releaseStep s2
    { s := rel.1, log := r.log ++ rel.2, raised := false }

/-- Method `down(e)`: resets, then records `e` as `eDown`, stores the pointer id,
and captures the pointer on the element. -/
def down (s : CPState) (e : PointerEvent) : MRes :=
  let r := reset s
  if r.raised then r
  else
    { s := { r.s with
        eDown := some e
        pointerId := some e.pointerId
        captured := some e.pointerId }
      log := r.log ++ [.setCapture e.pointerId]
      raised := false }

/-- Method `move(e)`: no-op without `eDown`; resets when no buttons are down;
treats loss of the starting buttons as a pointerup (complete, then reset);
otherwise records `eMove`, fires `onDrag`, and evaluates the drag-start
transition when not yet dragging. -/
def move (cfg : Config) (s : CPState) (e : PointerEvent) : MRes :=
  match s.eDown with
  | none => { s := s, log := [], raised := false }
  | some eDown =>
    if e.buttons = 0 then reset s
    else if e.buttons &&& eDown.buttons = 0 then
      let c := completeClick cfg s e
      let r := reset c.1
      { r with log := c.2 ++ r.log }
    else
      let s1 := { s with eMove := some e }
      let log1 : List Fired := if s1.onDrag then [.drag e] else []
      if s1.dragStarted then { s := s1, log := log1, raised := false }
      else
        let longerThanBufferTime := e.timeStamp - eDown.timeStamp > cfg.bufferTime
        if longerThanBufferTime ∨ ¬ hasSamePosition e eDown cfg.maxClickDrift2 then
          let r := setDragStarted s1
          { s := r.1, log := log1 ++ r.2, raised := false }
        else { s := s1, log := log1, raised := false }

/-- Method `up(e)`: returns `false` untouched when the button does not match the
session's `eDown.button` (or there is no session); otherwise completes the
click, resets, and reports whether the session closed as a plain click. -/
def up (cfg : Config) (s : CPState) (e : PointerEvent) : MRes × Bool :=
  match s.eDown with
  | none => ({ s := s, log := [], raised := false }, false)
  | some eDown =>
    if e.button ≠ eDown.button then ({ s := s, log := [], raised := false }, false)
    else
      let c := completeClick cfg s e
      let dragStarted := c.1.dragStarted
      let r := reset c.1
      ({ r with log := c.2 ++ r.log }, !dragStarted)

/-- Host-side registration of all five gesture callbacks, as an event
handler would do right after forwarding the pointerdown. -/
def withAllCallbacks (s : CPState) : CPState :=
  { s with onDragStart := true, onDrag := true, onDragEnd := true
           onClick := true, onDoubleClick := true }

/-- Forward a list of pointermove events in order, accumulating the log. -/
def runMoves (cfg : Config) : CPState → List PointerEvent → CPState × List Fired
  | s, [] => (s, [])
  | s, m :: ms =>
    let r := move cfg s m
    let t := runMoves cfg r.s ms
    (t.1, r.log ++ t.2)

/-- One full session: a pointerdown (after which the host registers every
callback), the intervening pointermove events, and the closing pointerup.
Returns the full log and `up`'s result. -/
def runSession (cfg : Config) (s0 : CPState) (e0 : PointerEvent)
    (ms : List PointerEvent) (e1 : PointerEvent) : List Fired × Bool :=
  let r0 := down s0 e0
  let t := runMoves cfg (withAllCallbacks r0.s) ms
  let u := up cfg t.1 e1
  (r0.log ++ t.2 ++ u.1.log, u.2)

/-- A pointermove event that stays inside the click envelope of the session
opened by `e0`: some buttons down, still including `e0`'s buttons, within
the (squared) drift threshold of `e0`, and less than `bufferTime` after it. -/
def inBoundsMove (cfg : Config) (e0 m : PointerEvent) : Prop :=
  m.buttons ≠ 0 ∧ m.buttons &&& e0.buttons ≠ 0 ∧
    dist2 m.clientX m.clientY e0.clientX e0.clientY ≤ cfg.maxClickDrift2 ∧
    m.timeStamp - e0.timeStamp < cfg.bufferTime

instance (cfg : Config) (e0 m : PointerEvent) : Decidable (inBoundsMove cfg e0 m) := by
  unfold inBoundsMove; infer_instance

end CanvasPointer

/-- Sample pointerdown: pointer 1, button 0 (mask 1), at (0,0), t = 0. -/
def evDown0 : PointerEvent :=
  { pointerId := 1, button := 0, buttons := 1, clientX := 0, clientY := 0, timeStamp := 0 }

/-- Sample pointermove: still button mask 1, at (1,0), t = 10. -/
def evMove1 : PointerEvent :=
  { pointerId := 1, button := 0, buttons := 1, clientX := 1, clientY := 0, timeStamp := 10 }

/-- Sample pointerup: button 0, no buttons remaining, at (2,0), t = 20. -/
def evUp2 : PointerEvent :=
  { pointerId := 1, button := 0, buttons := 0, clientX := 2, clientY := 0, timeStamp := 20 }

/-- Sample pointerup with the wrong button (button 2). -/
def evUpWrongBtn : PointerEvent :=
  { pointerId := 1, button := 2, buttons := 1, clientX := 2, clientY := 0, timeStamp := 20 }

/-- Sample pointerup far from the down position: (100,100), t = 10. -/
def evUpFar : PointerEvent :=
  { pointerId := 1, button := 0, buttons := 0, clientX := 100, clientY := 100, timeStamp := 10 }

/-- Sample second pointerdown, 10 px right of `evDown0`, 100 ms later. -/
def evDownB : PointerEvent :=
  { pointerId := 1, button := 0, buttons := 1, clientX := 10, clientY := 0, timeStamp := 100 }

/-- A state with an open session on `evDown0`, capture held, and all five
gesture callbacks registered. -/
def sOpen : CPState :=
  { CPState.fresh with
    eDown := some evDown0, pointerId := some 1, captured := some 1
    onDragStart := true, onDrag := true, onDragEnd := true
    onClick := true, onDoubleClick := true }

/-- A state holding the two sample down-events: `evDownB` as the current
`eDown` and `evDown0` as `eLastDown`. -/
def sDouble : CPState :=
  { CPState.fresh with eDown := some evDownB, eLastDown := some evDown0 }

/-- A sample `finally` callback that throws when invoked. -/
def fbThrow : FinallyCb := { id := 7, throws := true }

/-- A sample well-behaved `finally` callback. -/
def fbOne : FinallyCb := { id := 1, throws := false }

/-- A second sample well-behaved `finally` callback. -/
def fbTwo : FinallyCb := { id := 2, throws := false }

/-- A state whose `finally` slot holds a throwing callback. -/
def sThrow : CPState := { CPState.fresh with fin := some fbThrow }

/-- The open-session state `sOpen` with `clearEventsOnReset` switched off
and a recorded previous move event. -/
def sOpenNoClear : CPState :=
  { sOpen with clearEventsOnReset := false, eMove := some evMove1 }

/-- A pointermove whose button mask (4) no longer includes the session's
starting mask (1): the functional equivalent of a pointerup. -/
def evMaskGone : PointerEvent :=
  { pointerId := 1, button := 0, buttons := 4, clientX := 3, clientY := 0, timeStamp := 30 }

/-! ## Helper lemmas -/

theorem finCalls_all_admin (o : Option FinallyCb) :
    (finCalls o).all Fired.isAdmin = true := by
  cases o <;> simp [finCalls, Fired.isAdmin]

theorem releaseStep_cases (s : CPState) :
    CanvasPointer.releaseStep s = (s, []) ∨
    CanvasPointer.releaseStep s = ({ s with captured := none }, [Fired.releaseCapture]) := by
  unfold CanvasPointer.releaseStep
  cases s.pointerId with
  | none => exact Or.inl rfl
  | some pid =>
    by_cases h : s.captured = some pid
    · exact Or.inr (by simp [h])
    · exact Or.inl (by simp [h])

theorem reset_raised_eq (s : CPState) :
    (CanvasPointer.reset s).raised = finRaises s.fin := by
  unfold CanvasPointer.reset CanvasPointer.setFinally
  by_cases h : finRaises s.fin
  · simp [h]
  · simp [h]

theorem reset_of_raised (s : CPState) (h : finRaises s.fin = true) :
    CanvasPointer.reset s =
      { s := { s with fin := none }, log := finCalls s.fin, raised := true } := by
  unfold CanvasPointer.reset CanvasPointer.setFinally
  simp [h]

theorem reset_of_ok (s : CPState) (h : finRaises s.fin = false) :
    CanvasPointer.reset s =
      { s := (CanvasPointer.releaseStep (CanvasPointer.clearedFields { s with fin := none })).1
        log := finCalls s.fin ++
          (CanvasPointer.releaseStep (CanvasPointer.clearedFields { s with fin := none })).2
        raised := false } := by
  unfold CanvasPointer.reset CanvasPointer.setFinally
  simp [h]

theorem reset_fin_none (s : CPState) : (CanvasPointer.reset s).s.fin = none := by
  by_cases h : finRaises s.fin
  · simp [reset_of_raised s h]
  · rw [reset_of_ok s (by simpa using h)]
    rcases releaseStep_cases (CanvasPointer.clearedFields { s with fin := none }) with hc | hc <;>
      rw [hc] <;> simp [CanvasPointer.clearedFields]

theorem reset_log_all_admin (s : CPState) :
    (CanvasPointer.reset s).log.all Fired.isAdmin = true := by
  by_cases h : finRaises s.fin
  · simp [reset_of_raised s h, finCalls_all_admin]
  · rw [reset_of_ok s (by simpa using h)]
    rcases releaseStep_cases (CanvasPointer.clearedFields { s with fin := none }) with hc | hc <;>
      rw [hc] <;> simp [List.all_append, finCalls_all_admin, Fired.isAdmin]

theorem down_log_all_admin (s : CPState) (e : PointerEvent) :
    (CanvasPointer.down s e).log.all Fired.isAdmin = true := by
  unfold CanvasPointer.down
  by_cases h : (CanvasPointer.reset s).raised
  · simp [h, reset_log_all_admin]
  · simp [h, List.all_append, reset_log_all_admin, Fired.isAdmin]

theorem countP_eq_zero_of_admin (l : List Fired) (p : Fired → Bool)
    (hl : l.all Fired.isAdmin = true) (hp : ∀ a, Fired.isAdmin a = true → p a = false) :
    l.countP p = 0 := by
  induction l with
  | nil => simp
  | cons a t ih =>
    rw [List.all_cons, Bool.and_eq_true] at hl
    simp [List.countP_cons, hp a hl.1, ih hl.2]

theorem admin_not_clickKind (a : Fired) (h : Fired.isAdmin a = true) :
    Fired.isClickKind a = false := by
  cases a <;> simp_all [Fired.isAdmin, Fired.isClickKind]

theorem admin_not_dragStartKind (a : Fired) (h : Fired.isAdmin a = true) :
    Fired.isDragStartKind a = false := by
  cases a <;> simp_all [Fired.isAdmin, Fired.isDragStartKind]

theorem admin_not_dragEndKind (a : Fired) (h : Fired.isAdmin a = true) :
    Fired.isDragEndKind a = false := by
  cases a <;> simp_all [Fired.isAdmin, Fired.isDragEndKind]

theorem admin_not_callback (a : Fired) (h : Fired.isAdmin a = true) :
    Fired.isCallback a = false := by
  cases a <;> simp_all [Fired.isAdmin, Fired.isCallback]

/-! ## Claim theorems -/

/-- C7: after any assignment to `maxClickDrift` the cached squared value
equals `v * v`, and along any sequence of assignments starting from the
default configuration the cache is never out of sync with `maxClickDrift`. -/
theorem setMaxClickDrift_cache_consistent :
    (∀ (c : Config) (v : Int), (setMaxClickDrift c v).maxClickDrift2 = v * v) ∧
    (∀ vs : List Int,
      (vs.foldl setMaxClickDrift defaultCfg).maxClickDrift2 =
        (vs.foldl setMaxClickDrift defaultCfg).maxClickDrift *
          (vs.foldl setMaxClickDrift defaultCfg).maxClickDrift) := by
  refine ⟨fun c v => rfl, fun vs => ?_⟩
  have key : ∀ (l : List Int) (c : Config),
      c.maxClickDrift2 = c.maxClickDrift * c.maxClickDrift →
      (l.foldl setMaxClickDrift c).maxClickDrift2 =
        (l.foldl setMaxClickDrift c).maxClickDrift *
          (l.foldl setMaxClickDrift c).maxClickDrift := by
    intro l
    induction l with
    | nil => intro c h; simpa using h
    | cons v t ih => intro c _; exact ih (setMaxClickDrift c v) rfl
  exact key vs defaultCfg rfl

/-- C5: `up(e)` with a button that does not match the open session's
`eDown.button` returns `false` and leaves the whole tracker state unchanged:
no field is mutated, nothing is logged (no callback, no capture release),
and no exception is raised. -/
theorem up_mismatched_button_noop (cfg : Config) (s : CPState) (e eDown : PointerEvent)
    (hDown : s.eDown = some eDown) (hBtn : e.button ≠ eDown.button) :
    CanvasPointer.up cfg s e = ({ s := s, log := [], raised := false }, false) := by
  simp [CanvasPointer.up, hDown, hBtn]

/-- Witness for C5 at a concrete open session and wrong-button up-event. -/
theorem up_mismatched_button_noop_witness :
    CanvasPointer.up defaultCfg sOpen evUpWrongBtn =
      ({ s := sOpen, log := [], raised := false }, false) :=
  up_mismatched_button_noop defaultCfg sOpen evUpWrongBtn evDown0 rfl (by decide)

/-- C8: `up(e)` when no session is open (`eDown` is null) returns `false`
and leaves the tracker state untouched: nothing fires, nothing is mutated,
capture is not touched. -/
theorem up_without_session_noop (cfg : Config) (s : CPState) (e : PointerEvent)
    (h : s.eDown = none) :
    CanvasPointer.up cfg s e = ({ s := s, log := [], raised := false }, false) := by
  simp [CanvasPointer.up, h]

/-- Witness for C8 on the fresh tracker state. -/
theorem up_without_session_noop_witness :
    CanvasPointer.up defaultCfg CPState.fresh evUp2 =
      ({ s := CPState.fresh, log := [], raised := false }, false) :=
  up_without_session_noop defaultCfg CPState.fresh evUp2 rfl

/-- C9: when the currently held `finally` callback throws during an
assignment to the slot, the new value is still stored (and the exception
propagates); in particular `reset()` always leaves the slot cleared. -/
theorem setFinally_stores_despite_throw (s : CPState) (v : Option FinallyCb)
    (f : FinallyCb) (hf : s.fin = some f) (ht : f.throws = true) :
    (CanvasPointer.setFinally s v).s.fin = v ∧
    (CanvasPointer.setFinally s v).raised = true ∧
    (CanvasPointer.reset s).s.fin = none := by
  refine ⟨rfl, ?_, reset_fin_none s⟩
  simp [CanvasPointer.setFinally, finRaises, hf, ht]

/-- Witness for C9: a throwing callback in the slot, replaced by `fbOne`. -/
theorem setFinally_stores_despite_throw_witness :
    (CanvasPointer.setFinally sThrow (some fbOne)).s.fin = some fbOne ∧
    (CanvasPointer.setFinally sThrow (some fbOne)).raised = true ∧
    (CanvasPointer.reset sThrow).s.fin = none :=
  setFinally_stores_despite_throw sThrow (some fbOne) fbThrow rfl rfl

/-- C4: assigning `finally = f1` and then `finally = f2` (starting from an
empty slot) invokes nothing on the first assignment, invokes exactly `f1`
(once) during the second, stores `f2` in the slot, and never invokes `f2`. -/
theorem finally_swap_semantics (s : CPState) (f1 f2 : FinallyCb)
    (h0 : s.fin = none) (hne : f1.id ≠ f2.id) :
    (CanvasPointer.setFinally s (some f1)).log = [] ∧
    (CanvasPointer.setFinally (CanvasPointer.setFinally s (some f1)).s (some f2)).log =
      [Fired.finallyCall f1.id] ∧
    (CanvasPointer.setFinally (CanvasPointer.setFinally s (some f1)).s (some f2)).s.fin =
      some f2 ∧
    ((CanvasPointer.setFinally s (some f1)).log ++
      (CanvasPointer.setFinally (CanvasPointer.setFinally s (some f1)).s (some f2)).log).countP
        (fun a => a == Fired.finallyCall f2.id) = 0 := by
  refine ⟨?_, ?_, rfl, ?_⟩
  · simp [CanvasPointer.setFinally, finCalls, h0]
  · simp [CanvasPointer.setFinally, finCalls, h0]
  · simp [CanvasPointer.setFinally, finCalls, h0, List.countP_cons, hne]

/-- Witness for C4 with two distinct concrete callbacks from an empty slot. -/
theorem finally_swap_semantics_witness :
    (CanvasPointer.setFinally CPState.fresh (some fbOne)).log = [] ∧
    (CanvasPointer.setFinally
      (CanvasPointer.setFinally CPState.fresh (some fbOne)).s (some fbTwo)).log =
      [Fired.finallyCall fbOne.id] ∧
    (CanvasPointer.setFinally
      (CanvasPointer.setFinally CPState.fresh (some fbOne)).s (some fbTwo)).s.fin =
      some fbTwo ∧
    ((CanvasPointer.setFinally CPState.fresh (some fbOne)).log ++
      (CanvasPointer.setFinally
        (CanvasPointer.setFinally CPState.fresh (some fbOne)).s (some fbTwo)).log).countP
        (fun a => a == Fired.finallyCall fbTwo.id) = 0 :=
  finally_swap_semantics CPState.fresh fbOne fbTwo rfl (by decide)

/-- C2 (corrected): the double-click test passes iff the timestamp delta
between `eDown` and `eLastDown` is strictly positive, strictly below
`doubleClickTime`, and the squared distance between the two down-events is
at most `(3 * maxClickDrift) ^ 2` (not `3 * maxClickDrift`). -/
theorem isDoubleClick_characterization (cfg : Config) (s : CPState)
    (e1 e2 : PointerEvent) (h1 : s.eDown = some e1) (h2 : s.eLastDown = some e2) :
    CanvasPointer.isDoubleClick cfg s = true ↔
      (0 < e1.timeStamp - e2.timeStamp ∧
       e1.timeStamp - e2.timeStamp < cfg.doubleClickTime ∧
       dist2 e1.clientX e1.clientY e2.clientX e2.clientY ≤
         (3 * cfg.maxClickDrift) ^ 2) := by
  simp [CanvasPointer.isDoubleClick, h1, h2, CanvasPointer.hasSamePosition, and_assoc]

/-- Counterexample to C2 as stated: with the default configuration,
`eDown = evDownB` and `eLastDown = evDown0` pass the code's double-click
test although their squared distance (100) is not within
`3 * maxClickDrift = 18`, refuting the claimed equivalence. -/
theorem isDoubleClick_linear_bound_fails :
    ¬ (CanvasPointer.isDoubleClick defaultCfg sDouble = true ↔
      (0 < evDownB.timeStamp - evDown0.timeStamp ∧
       evDownB.timeStamp - evDown0.timeStamp < defaultCfg.doubleClickTime ∧
       dist2 evDownB.clientX evDownB.clientY evDown0.clientX evDown0.clientY ≤
         3 * defaultCfg.maxClickDrift)) := by decide

/-- Witness for the corrected C2 at the concrete pair of down-events. -/
theorem isDoubleClick_characterization_witness :
    CanvasPointer.isDoubleClick defaultCfg sDouble = true ↔
      (0 < evDownB.timeStamp - evDown0.timeStamp ∧
       evDownB.timeStamp - evDown0.timeStamp < defaultCfg.doubleClickTime ∧
       dist2 evDownB.clientX evDownB.clientY evDown0.clientX evDown0.clientY ≤
         (3 * defaultCfg.maxClickDrift) ^ 2) :=
  isDoubleClick_characterization defaultCfg sDouble evDownB evDown0 rfl rfl

/-! ## Reset/release support lemmas -/

theorem finCalls_no_release (o : Option FinallyCb) :
    (finCalls o).countP Fired.isRelease = 0 := by
  cases o <;> simp [finCalls, Fired.isRelease]

theorem releaseStep_of_captured_none (u : CPState) (h : u.captured = none) :
    CanvasPointer.releaseStep u = (u, []) := by
  unfold CanvasPointer.releaseStep
  cases u.pointerId with
  | none => rfl
  | some pid => simp [h]

theorem reset_release_count_pos_captured (s : CPState) :
    (CanvasPointer.reset s).log.countP Fired.isRelease = 0 ∨
    ((CanvasPointer.reset s).log.countP Fired.isRelease = 1 ∧
      (CanvasPointer.reset s).s.captured = none) := by
  by_cases hr : finRaises s.fin
  · left
    simp [reset_of_raised s hr, finCalls_no_release]
  · rw [reset_of_ok s (by simpa using hr)]
    rcases releaseStep_cases (CanvasPointer.clearedFields { s with fin := none }) with hc | hc
    · left
      rw [hc]
      simp [List.countP_append, finCalls_no_release]
    · right
      rw [hc]
      simp [List.countP_append, finCalls_no_release, Fired.isRelease]

theorem reset_release_count_le (s : CPState) :
    (CanvasPointer.reset s).log.countP Fired.isRelease ≤ 1 := by
  rcases reset_release_count_pos_captured s with h | ⟨h, _⟩ <;> omega

theorem reset_no_release_of_captured_none (t : CPState) (h : t.captured = none) :
    (CanvasPointer.reset t).log.countP Fired.isRelease = 0 := by
  by_cases hr : finRaises t.fin
  · simp [reset_of_raised t hr, finCalls_no_release]
  · rw [reset_of_ok t (by simpa using hr)]
    rw [releaseStep_of_captured_none (CanvasPointer.clearedFields { t with fin := none })
      (by simp [CanvasPointer.clearedFields, h])]
    simp [List.countP_append, finCalls_no_release]

theorem reset_finallyCall_count_of_fin_none (t : CPState) (h : t.fin = none) :
    (CanvasPointer.reset t).log.countP Fired.isFinallyCall = 0 := by
  rw [reset_of_ok t (by rw [h]; rfl)]
  rcases releaseStep_cases (CanvasPointer.clearedFields { t with fin := none }) with hc | hc <;>
    rw [hc] <;> simp [List.countP_append, finCalls, h, Fired.isFinallyCall]

/-- C6: two consecutive `reset()` calls release pointer capture at most once
over the two calls, and the second call never invokes the `finally` slot
(the first call cleared it). -/
theorem reset_twice_single_release (s : CPState) :
    ((CanvasPointer.reset s).log ++
      (CanvasPointer.reset (CanvasPointer.reset s).s).log).countP Fired.isRelease ≤ 1 ∧
    (CanvasPointer.reset (CanvasPointer.reset s).s).log.countP Fired.isFinallyCall = 0 := by
  refine ⟨?_, reset_finallyCall_count_of_fin_none _ (reset_fin_none s)⟩
  rw [List.countP_append]
  rcases reset_release_count_pos_captured s with h0 | ⟨h1, hcap⟩
  · have h2 := reset_release_count_le (CanvasPointer.reset s).s
    omega
  · have h2 := reset_no_release_of_captured_none (CanvasPointer.reset s).s hcap
    omega

/-! ## Completion support lemmas -/

theorem filter_callback_eq_nil_of_admin (l : List Fired)
    (h : l.all Fired.isAdmin = true) : l.filter Fired.isCallback = [] := by
  induction l with
  | nil => rfl
  | cons a t ih =>
    rw [List.all_cons, Bool.and_eq_true] at h
    rw [List.filter_cons, admin_not_callback a h.1, ih h.2]
    simp

theorem completeClick_teleport (cfg : Config) (s : CPState) (e eDown : PointerEvent)
    (hDown : s.eDown = some eDown) (hDrag : s.dragStarted = false)
    (hFar : ¬ (dist2 e.clientX e.clientY eDown.clientX eDown.clientY ≤ cfg.maxClickDrift2)) :
    CanvasPointer.completeClick cfg s e =
      ({ s with eUp := some e, dragStarted := true, onDragStart := false },
       (if s.onDragStart then [Fired.dragStart] else []) ++
         (if s.onDragEnd then [Fired.dragEnd e] else [])) := by
  simp [CanvasPointer.completeClick, CanvasPointer.setDragStarted, hDown, hDrag,
    CanvasPointer.hasSamePosition, hFar]

/-- C3: an `up()` call closing a session that never started dragging, whose
closing event is beyond the drift threshold from `eDown` (teleport), fires
`onDragStart` (if registered) then `onDragEnd` (if registered), in that
order, and fires neither `onClick` nor `onDoubleClick`. -/
theorem up_teleport_dragStart_then_dragEnd (cfg : Config) (s : CPState)
    (e eDown : PointerEvent) (hDown : s.eDown = some eDown)
    (hDrag : s.dragStarted = false)
    (hFar : ¬ (dist2 e.clientX e.clientY eDown.clientX eDown.clientY ≤ cfg.maxClickDrift2))
    (hBtn : e.button = eDown.button) :
    (CanvasPointer.up cfg s e).1.log.filter Fired.isCallback =
      (if s.onDragStart then [Fired.dragStart] else []) ++
        (if s.onDragEnd then [Fired.dragEnd e] else []) := by
  have hcc := completeClick_teleport cfg s e eDown hDown hDrag hFar
  simp only [CanvasPointer.up, hDown]
  rw [if_neg (by simp [hBtn])]
  simp only [hcc]
  rw [List.filter_append,
    filter_callback_eq_nil_of_admin _ (reset_log_all_admin _), List.append_nil]
  by_cases h1 : s.onDragStart <;> by_cases h2 : s.onDragEnd <;>
    simp [h1, h2, Fired.isCallback]

/-- Witness for C3: the documented teleport scenario — down at (0,0) t=0,
up at (100,100) t=10 with drift threshold 6 and no intervening moves. -/
theorem up_teleport_dragStart_then_dragEnd_witness :
    (CanvasPointer.up defaultCfg sOpen evUpFar).1.log.filter Fired.isCallback =
      (if sOpen.onDragStart then [Fired.dragStart] else []) ++
        (if sOpen.onDragEnd then [Fired.dragEnd evUpFar] else []) :=
  up_teleport_dragStart_then_dragEnd defaultCfg sOpen evUpFar evDown0 rfl rfl
    (by decide) (by decide)

theorem admin_not_drag (a : Fired) (h : Fired.isAdmin a = true) :
    Fired.isDrag a = false := by
  cases a <;> simp_all [Fired.isAdmin, Fired.isDrag]

theorem completeClick_frame (cfg : Config) (s : CPState) (e eDown : PointerEvent)
    (hDown : s.eDown = some eDown) :
    (CanvasPointer.completeClick cfg s e).1.eUp = some e ∧
    (CanvasPointer.completeClick cfg s e).1.eMove = s.eMove ∧
    (CanvasPointer.completeClick cfg s e).1.clearEventsOnReset = s.clearEventsOnReset ∧
    (CanvasPointer.completeClick cfg s e).2.countP Fired.isDrag = 0 := by
  simp only [CanvasPointer.completeClick, CanvasPointer.setDragStarted, hDown]
  split_ifs <;> simp [Fired.isDrag, List.countP_append]

theorem reset_events_of_noclear (t : CPState) (h : t.clearEventsOnReset = false) :
    (CanvasPointer.reset t).s.eUp = t.eUp ∧ (CanvasPointer.reset t).s.eMove = t.eMove := by
  by_cases hr : finRaises t.fin
  · rw [reset_of_raised t hr]; exact ⟨rfl, rfl⟩
  · rw [reset_of_ok t (by simpa using hr)]
    rcases releaseStep_cases (CanvasPointer.clearedFields { t with fin := none }) with hc | hc <;>
      rw [hc] <;> simp [CanvasPointer.clearedFields, h]

/-- C10: a `move()` event that closes the session because its button mask no
longer includes the session's starting buttons is recorded as the up-event
(`eUp`), not as `eMove` (which is left unchanged), and `onDrag` is not
invoked for it.  Stated with `clearEventsOnReset = false` so that the
recorded events survive the reset that ends the session. -/
theorem move_button_release_records_upEvent (cfg : Config) (s : CPState)
    (e eDown : PointerEvent) (hDown : s.eDown = some eDown)
    (hB : e.buttons ≠ 0) (hMask : e.buttons &&& eDown.buttons = 0)
    (hClear : s.clearEventsOnReset = false) :
    (CanvasPointer.move cfg s e).s.eUp = some e ∧
    (CanvasPointer.move cfg s e).s.eMove = s.eMove ∧
    (CanvasPointer.move cfg s e).log.countP Fired.isDrag = 0 := by
  obtain ⟨hUp, hMove, hCl, hCnt⟩ := completeClick_frame cfg s e eDown hDown
  have hreset := reset_events_of_noclear (CanvasPointer.completeClick cfg s e).1
    (by rw [hCl]; exact hClear)
  have hresetCnt : (CanvasPointer.reset (CanvasPointer.completeClick cfg s e).1).log.countP
      Fired.isDrag = 0 :=
    countP_eq_zero_of_admin _ _ (reset_log_all_admin _) admin_not_drag
  simp only [CanvasPointer.move, hDown]
  rw [if_neg hB, if_pos hMask]
  refine ⟨?_, ?_, ?_⟩
  · rw [hreset.1, hUp]
  · rw [hreset.2, hMove]
  · rw [List.countP_append, hCnt, hresetCnt]

/-- Witness for C10: session open on `evDown0` with `clearEventsOnReset`
off, and a move event whose button mask no longer includes the session's
starting mask. -/
theorem move_button_release_records_upEvent_witness :
    (CanvasPointer.move defaultCfg sOpenNoClear evMaskGone).s.eUp = some evMaskGone ∧
    (CanvasPointer.move defaultCfg sOpenNoClear evMaskGone).s.eMove = sOpenNoClear.eMove ∧
    (CanvasPointer.move defaultCfg sOpenNoClear evMaskGone).log.countP Fired.isDrag = 0 :=
  move_button_release_records_upEvent defaultCfg sOpenNoClear evMaskGone evDown0
    rfl (by decide) (by decide) rfl

/-! ## Session support lemmas -/

theorem admin_not_clickKind_f (a : Fired) (h : Fired.isAdmin a = true) :
    Fired.isClickKind a = false := admin_not_clickKind a h

theorem move_inBounds_eq (cfg : Config) (s : CPState) (e0 m : PointerEvent)
    (hDown : s.eDown = some e0) (hDrag : s.dragStarted = false)
    (hm : CanvasPointer.inBoundsMove cfg e0 m) :
    CanvasPointer.move cfg s m =
      { s := { s with eMove := some m }
        log := if s.onDrag then [Fired.drag m] else []
        raised := false } := by
  obtain ⟨h1, h2, h3, h4⟩ := hm
  have hA : ¬ (m.timeStamp - e0.timeStamp > cfg.bufferTime) := by omega
  have hB : CanvasPointer.hasSamePosition m e0 cfg.maxClickDrift2 = true := by
    simpa [CanvasPointer.hasSamePosition] using h3
  simp [CanvasPointer.move, hDown, h1, h2, hDrag, hA, hB]

theorem runMoves_inBounds (cfg : Config) (e0 : PointerEvent) (ms : List PointerEvent) :
    ∀ s : CPState, s.eDown = some e0 → s.dragStarted = false →
      (∀ m ∈ ms, CanvasPointer.inBoundsMove cfg e0 m) →
      (CanvasPointer.runMoves cfg s ms).1 =
        { s with eMove := (CanvasPointer.runMoves cfg s ms).1.eMove } ∧
      (CanvasPointer.runMoves cfg s ms).2.countP Fired.isClickKind = 0 ∧
      (CanvasPointer.runMoves cfg s ms).2.countP Fired.isDragStartKind = 0 ∧
      (CanvasPointer.runMoves cfg s ms).2.countP Fired.isDragEndKind = 0 := by
  induction ms with
  | nil =>
    intro s h1 h2 h3
    exact ⟨rfl, by simp [CanvasPointer.runMoves], by simp [CanvasPointer.runMoves],
      by simp [CanvasPointer.runMoves]⟩
  | cons m t ih =>
    intro s h1 h2 h3
    have hmv := move_inBounds_eq cfg s e0 m h1 h2 (h3 m (by simp))
    have ih' := ih { s with eMove := some m } h1 h2
      (fun x hx => h3 x (List.mem_cons_of_mem m hx))
    simp only [CanvasPointer.runMoves, hmv]
    obtain ⟨ihS, ihC, ihDS, ihDE⟩ := ih'
    refine ⟨ihS, ?_, ?_, ?_⟩
    · rw [List.countP_append, ihC]
      by_cases hd : s.onDrag <;> simp [hd, Fired.isClickKind]
    · rw [List.countP_append, ihDS]
      by_cases hd : s.onDrag <;> simp [hd, Fired.isDragStartKind]
    · rw [List.countP_append, ihDE]
      by_cases hd : s.onDrag <;> simp [hd, Fired.isDragEndKind]

theorem reset_dragStarted_of_ok (s : CPState) (h : finRaises s.fin = false) :
    (CanvasPointer.reset s).s.dragStarted = false := by
  rw [reset_of_ok s h]
  rcases releaseStep_cases (CanvasPointer.clearedFields { s with fin := none }) with hc | hc <;>
    rw [hc] <;> simp [CanvasPointer.clearedFields]

theorem down_ok_fields (s0 : CPState) (e0 : PointerEvent)
    (h : finRaises s0.fin = false) :
    (CanvasPointer.down s0 e0).s.eDown = some e0 ∧
    (CanvasPointer.down s0 e0).s.dragStarted = false := by
  have hr : (CanvasPointer.reset s0).raised = false := by rw [reset_raised_eq, h]
  simp only [CanvasPointer.down, hr]
  exact ⟨rfl, reset_dragStarted_of_ok s0 h⟩

theorem completeClick_click_cases (cfg : Config) (t : CPState) (e eDown : PointerEvent)
    (hDown : t.eDown = some eDown) (hDrag : t.dragStarted = false)
    (hNear : CanvasPointer.hasSamePosition e eDown cfg.maxClickDrift2 = true)
    (hC : t.onClick = true) (hD : t.onDoubleClick = true) :
    (CanvasPointer.completeClick cfg t e).2 = [Fired.doubleClick e] ∨
    (CanvasPointer.completeClick cfg t e).2 = [Fired.click e] := by
  simp only [CanvasPointer.completeClick, hDown]
  simp [hDrag, hNear, hC, hD]
  split
  · exact Or.inl rfl
  · exact Or.inr rfl

/-- C1 (corrected): for every session — pointerdown, any number of
intervening in-envelope moves (buttons held, within drift, within buffer
time), and a matching pointerup within drift and buffer time — with all
callbacks registered, exactly one of `onClick`/`onDoubleClick` fires and
neither `onDragStart` nor `onDragEnd` ever fires.  (`onDrag`, contrary to
the claim as stated, fires on every intervening move.) -/
theorem session_in_envelope_single_click (cfg : Config) (s0 : CPState)
    (e0 : PointerEvent) (ms : List PointerEvent) (e1 : PointerEvent)
    (hFin : finRaises s0.fin = false)
    (hms : ∀ m ∈ ms, CanvasPointer.inBoundsMove cfg e0 m)
    (hBtn : e1.button = e0.button)
    (hDist : dist2 e1.clientX e1.clientY e0.clientX e0.clientY ≤ cfg.maxClickDrift2)
    (hTime : e1.timeStamp - e0.timeStamp < cfg.bufferTime) :
    (CanvasPointer.runSession cfg s0 e0 ms e1).1.countP Fired.isClickKind = 1 ∧
    (CanvasPointer.runSession cfg s0 e0 ms e1).1.countP Fired.isDragStartKind = 0 ∧
    (CanvasPointer.runSession cfg s0 e0 ms e1).1.countP Fired.isDragEndKind = 0 := by
  obtain ⟨hd1, hd2⟩ := down_ok_fields s0 e0 hFin
  have h1Down : (CanvasPointer.withAllCallbacks (CanvasPointer.down s0 e0).s).eDown = some e0 := hd1
  have h1Drag : (CanvasPointer.withAllCallbacks (CanvasPointer.down s0 e0).s).dragStarted = false := hd2
  obtain ⟨hT1, hTc, hTds, hTde⟩ :=
    runMoves_inBounds cfg e0 ms (CanvasPointer.withAllCallbacks (CanvasPointer.down s0 e0).s)
      h1Down h1Drag hms
  set t1 := (CanvasPointer.runMoves cfg
    (CanvasPointer.withAllCallbacks (CanvasPointer.down s0 e0).s) ms).1 with ht1
  have ht1Down : t1.eDown = some e0 := by rw [hT1]; exact h1Down
  have ht1Drag : t1.dragStarted = false := by rw [hT1]; exact h1Drag
  have ht1C : t1.onClick = true := by rw [hT1]; rfl
  have ht1D : t1.onDoubleClick = true := by rw [hT1]; rfl
  have hNear : CanvasPointer.hasSamePosition e1 e0 cfg.maxClickDrift2 = true := by
    simpa [CanvasPointer.hasSamePosition] using hDist
  have hcc := completeClick_click_cases cfg t1 e1 e0 ht1Down ht1Drag hNear ht1C ht1D
  have hup : (CanvasPointer.up cfg t1 e1).1.log =
      (CanvasPointer.completeClick cfg t1 e1).2 ++
        (CanvasPointer.reset (CanvasPointer.completeClick cfg t1 e1).1).log := by
    simp only [CanvasPointer.up, ht1Down]
    rw [if_neg (by simp [hBtn])]
  have hDownAdmin := down_log_all_admin s0 e0
  have hResetAdmin := reset_log_all_admin (CanvasPointer.completeClick cfg t1 e1).1
  simp only [CanvasPointer.runSession, ← ht1, hup, List.countP_append]
  have cD1 := countP_eq_zero_of_admin _ Fired.isClickKind hDownAdmin admin_not_clickKind
  have cD2 := countP_eq_zero_of_admin _ Fired.isDragStartKind hDownAdmin admin_not_dragStartKind
  have cD3 := countP_eq_zero_of_admin _ Fired.isDragEndKind hDownAdmin admin_not_dragEndKind
  have cR1 := countP_eq_zero_of_admin _ Fired.isClickKind hResetAdmin admin_not_clickKind
  have cR2 := countP_eq_zero_of_admin _ Fired.isDragStartKind hResetAdmin admin_not_dragStartKind
  have cR3 := countP_eq_zero_of_admin _ Fired.isDragEndKind hResetAdmin admin_not_dragEndKind
  rcases hcc with hcase | hcase <;>
    simp [hcase, hTc, hTds, hTde, cD1, cD2, cD3, cR1, cR2, cR3,
      Fired.isClickKind, Fired.isDragStartKind, Fired.isDragEndKind]

/-- Counterexample to C1 as stated: the concrete session down `evDown0`,
move `evMove1`, up `evUp2` satisfies every distance/time bound of the
claim, yet `onDrag` fires (once) for the intervening move event. -/
theorem session_in_envelope_onDrag_fires :
    (CanvasPointer.inBoundsMove defaultCfg evDown0 evMove1 ∧
     evUp2.button = evDown0.button ∧
     dist2 evUp2.clientX evUp2.clientY evDown0.clientX evDown0.clientY ≤
       defaultCfg.maxClickDrift2 ∧
     evUp2.timeStamp - evDown0.timeStamp < defaultCfg.bufferTime) ∧
    (CanvasPointer.runSession defaultCfg CPState.fresh evDown0 [evMove1] evUp2).1.countP
      Fired.isDrag = 1 := by
  decide

/-- Witness for the corrected C1 on the concrete session with one
intervening in-envelope move. -/
theorem session_in_envelope_single_click_witness :
    (CanvasPointer.runSession defaultCfg CPState.fresh evDown0 [evMove1] evUp2).1.countP
      Fired.isClickKind = 1 ∧
    (CanvasPointer.runSession defaultCfg CPState.fresh evDown0 [evMove1] evUp2).1.countP
      Fired.isDragStartKind = 0 ∧
    (CanvasPointer.runSession defaultCfg CPState.fresh evDown0 [evMove1] evUp2).1.countP
      Fired.isDragEndKind = 0 :=
  session_in_envelope_single_click defaultCfg CPState.fresh evDown0 [evMove1] evUp2
    rfl (by decide) (by decide) (by decide) (by decide)
